import Mathlib

/-!
Verification of the sandboxed code-acceptance and execution core of BlendAI
(`src/code_executor.py`, class `CodeExecutor`).

The development is a shallow embedding of that module:

* A Python syntax-tree type `PyNode` covering the node kinds the validator
  inspects (`ast.Import`, `ast.ImportFrom`, `ast.Call`, `ast.Name`,
  `ast.Attribute`, `ast.Constant`, `ast.Global`, `ast.Nonlocal`, `ast.While`)
  plus the container shapes needed to build candidate programs
  (`ast.Module`, `ast.Expr`, `ast.If`, `ast.Pass`).
* `walk` is `ast.walk`: breadth-first traversal driven by a deque that pops
  from the front and appends each node's children at the back.
* `validate_code` is `CodeExecutor.validate_code`: it receives the outcome of
  `ast.parse` (a `ParseResult`, since parsing itself is outside the model) and
  scans the walked nodes in order, returning the first violation.
* `execute_code` is `CodeExecutor.execute_code`. The dynamic behaviour of
  `exec(code, exec_globals)` on the live Blender scene is abstracted as an
  `ExecBehavior`: a function from the scene at entry to an `ExecOutcome`
  (normal completion, raised exception, or a `TimeoutError` surfacing in the
  executing thread). Host state is a `World`: the scene, the undo-step stack
  maintained by `bpy.ops.ed.undo_push` / `bpy.ops.ed.undo`, and `sys.stdout`.
  The returned `ExecCall` records the `(success, message, output)` triple, the
  final host state, and the ordered side-effect events of the call.
-/

namespace BlendAI

/-- Model of Python `str.startswith` on explicit character lists:
`hasPre pre s` holds when `pre` is an initial segment of `s`. -/
def hasPre : List Char → List Char → Bool
  | [], _ => true
  | _ :: _, [] => false
  | c :: cs, d :: ds => c == d && hasPre cs ds

/-- Model of Python `s.startswith(pre)`. -/
def startsWithPy (s pre : String) : Bool := hasPre pre.data s.data

/-- Helper for `containsPy`: does `pat` occur as a contiguous run of `s`? -/
def hasSub (pat : List Char) : List Char → Bool
  | [] => pat.isEmpty
  | c :: cs => hasPre pat (c :: cs) || hasSub pat cs

/-- Model of Python `pat in s` on strings (substring containment). -/
def containsPy (s pat : String) : Bool := hasSub pat.data s.data

/-- Model of the Python constant values distinguished by the validator:
`node.test.value is True` reacts only to the boolean object `True`, so the
boolean constants are kept apart from numeric and string constants. -/
inductive PyConst where
  | boolConst (b : Bool)
  | intConst (n : Int)
  | strConst (s : String)
  | noneConst
deriving DecidableEq

/-- Python abstract-syntax nodes, restricted to the shapes
`CodeExecutor.validate_code` inspects plus the containers needed to build
candidate programs.  Field order of each constructor follows the `ast` field
order, which is what `ast.iter_child_nodes` uses. -/
inductive PyNode where
  | moduleNode (body : List PyNode)
  | importStmt (names : List String)
  | importFromStmt (modName : String) (names : List String)
  | exprStmt (value : PyNode)
  | callExpr (func : PyNode) (args : List PyNode)
  | nameExpr (id : String)
  | attributeExpr (value : PyNode) (attrName : String)
  | constantExpr (value : PyConst)
  | globalStmt (names : List String)
  | nonlocalStmt (names : List String)
  | whileStmt (test : PyNode) (body : List PyNode) (orelse : List PyNode)
  | ifStmt (test : PyNode) (body : List PyNode) (orelse : List PyNode)
  | passStmt

/-- Model of `ast.iter_child_nodes`: the child AST nodes of a node, in field
order.  (`alias`, `expr_context` and operator tokens are omitted: no validator
rule matches them.) -/
def PyNode.children : PyNode → List PyNode
  | .moduleNode body => body
  | .importStmt _ => []
  | .importFromStmt _ _ => []
  | .exprStmt v => [v]
  | .callExpr f args => f :: args
  | .nameExpr _ => []
  | .attributeExpr v _ => [v]
  | .constantExpr _ => []
  | .globalStmt _ => []
  | .nonlocalStmt _ => []
  | .whileStmt t b o => t :: (b ++ o)
  | .ifStmt t b o => t :: (b ++ o)
  | .passStmt => []

mutual

/-- Number of syntax-tree nodes; measure for the breadth-first traversal. -/
def PyNode.size : PyNode → Nat
  | .moduleNode body => 1 + sizeListN body
  | .importStmt _ => 1
  | .importFromStmt _ _ => 1
  | .exprStmt v => 1 + v.size
  | .callExpr f args => 1 + (f.size + sizeListN args)
  | .nameExpr _ => 1
  | .attributeExpr v _ => 1 + v.size
  | .constantExpr _ => 1
  | .globalStmt _ => 1
  | .nonlocalStmt _ => 1
  | .whileStmt t b o => 1 + (t.size + (sizeListN b + sizeListN o))
  | .ifStmt t b o => 1 + (t.size + (sizeListN b + sizeListN o))
  | .passStmt => 1

/-- Total node count of a list of trees. -/
def sizeListN : List PyNode → Nat
  | [] => 0
  | n :: ns => n.size + sizeListN ns

end

/-- Model of the loop of `ast.walk`: a deque seeded with the root; pop a node
from the front, extend the back with its children, yield the node. -/
def bfsWalk (todo : List PyNode) : List PyNode :=
  match todo with
  | [] => []
  | n :: rest => n :: bfsWalk (rest ++ n.children)
termination_by sizeListN todo
decreasing_by
  have happ : ∀ l₁ l₂ : List PyNode,
      sizeListN (l₁ ++ l₂) = sizeListN l₁ + sizeListN l₂ := by
    intro l₁ l₂
    induction l₁ with
    | nil => simp [sizeListN]
    | cons a l ih => simp [sizeListN, ih]; omega
  have hlt : sizeListN n.children < n.size := by
    cases n <;> simp only [PyNode.children, PyNode.size, sizeListN, happ] <;> omega
  have h1 := happ ns n.children
  simp only [sizeListN] at *
  omega

/-- Model of `ast.walk(tree)`: every node of the tree, in breadth-first
order starting at the root. -/
def walk (t : PyNode) : List PyNode := bfsWalk [t]

/-- The module allow-list fixed in `CodeExecutor.__init__`
(`self.allowed_modules`). -/
def allowed_modules : List String :=
  ["bpy", "bmesh", "mathutils", "math", "random",
   "numpy", "json", "re", "time", "datetime"]

/-- The builtin allow-list fixed in `CodeExecutor.__init__`
(`self.allowed_builtins`). -/
def allowed_builtins : List String :=
  ["abs", "all", "any", "bin", "bool", "callable", "chr", "complex", "dict", "dir", "divmod",
   "enumerate", "filter", "float", "format", "frozenset", "getattr", "hasattr", "hash", "hex",
   "id", "int", "isinstance", "issubclass", "iter", "len", "list", "map", "max", "min", "next",
   "object", "oct", "ord", "pow", "print", "range", "repr", "reversed", "round", "set", "slice",
   "sorted", "str", "sum", "tuple", "type", "zip"]

/-- `self.execution_timeout`: execution timeout in seconds. -/
def execution_timeout : Nat := 30

/-- The `dangerous_names` deny-list of `CodeExecutor.validate_code`. -/
def dangerous_names : List String :=
  ["exec", "eval", "compile", "open", "input", "raw_input", "__import__",
   "globals", "locals", "vars", "dir", "delattr", "setattr"]

/-- The `suspicious_patterns` set of `CodeExecutor.validate_code`. -/
def suspicious_patterns : List String :=
  ["getattr", "hasattr", "setattr", "delattr"]

/-- Rule of `validate_code`: block all import statements
(`isinstance(node, (ast.Import, ast.ImportFrom))`). -/
def checkImport : PyNode → Option String
  | .importStmt _ => some "Imports are not allowed!"
  | .importFromStmt _ _ => some "Imports are not allowed!"
  | _ => none

/-- Rule of `validate_code`: block dangerous function calls by bare name, and
suspicious reflection helpers whose first positional argument is a string
literal starting with a double underscore
(`isinstance(node, ast.Call)` branch). -/
def checkCall : PyNode → Option String
  | .callExpr (.nameExpr id) args =>
    if dangerous_names.contains id then
      some ("Usage of dangerous function \x27" ++ id ++ "\x27 detected!")
    else if suspicious_patterns.contains id then
      match args.head? with
      | some (.constantExpr (.strConst s)) =>
        if startsWithPy s "__" then
          some ("Suspicious usage of \x27" ++ id ++ "\x27 with dunder attribute detected!")
        else none
      | _ => none
    else none
  | _ => none

/-- Rule of `validate_code`: block access to dunder attributes
(`isinstance(node, ast.Attribute)` branch). -/
def checkAttr : PyNode → Option String
  | .attributeExpr _ a =>
    if startsWithPy a "__" then
      some ("Access to dunder attribute \x27" ++ a ++ "\x27 is not allowed!")
    else none
  | _ => none

/-- Rule of `validate_code`: block `global` and `nonlocal` declarations
(`isinstance(node, (ast.Global, ast.Nonlocal))` branch). -/
def checkScope : PyNode → Option String
  | .globalStmt _ => some "Global and nonlocal declarations are not allowed!"
  | .nonlocalStmt _ => some "Global and nonlocal declarations are not allowed!"
  | _ => none

/-- Rule of `validate_code`: block `while` loops whose test is the literal
boolean constant `True` (`node.test.value is True`; note that `while 1:` has
an integer constant test and does not match). -/
def checkWhile : PyNode → Option String
  | .whileStmt (.constantExpr (.boolConst true)) _ _ =>
    some "Infinite \x27while True\x27 loops are not allowed for safety!"
  | _ => none

/-- One iteration of the `for node in ast.walk(tree)` loop body of
`validate_code`: the rules are tried in source order and the first match
returns its reason. -/
def nodeViolation (node : PyNode) : Option String :=
  match checkImport node with
  | some r => some r
  | none =>
    match checkCall node with
    | some r => some r
    | none =>
      match checkAttr node with
      | some r => some r
      | none =>
        match checkScope node with
        | some r => some r
        | none => checkWhile node

/-- The whole `for node in ast.walk(tree)` loop: first violation wins. -/
def scanNodes : List PyNode → Option String
  | [] => none
  | node :: rest =>
    match nodeViolation node with
    | some r => some r
    | none => scanNodes rest

/-- Outcome of `ast.parse(code, mode=\x27exec\x27)` for a candidate source
string: either the exception message of a parse failure, or the parsed tree.
Parsing itself is outside the model, so `validate_code` receives this
outcome directly. -/
inductive ParseResult where
  | parseFailure (ex : String)
  | parsed (tree : PyNode)

/-- Model of `CodeExecutor.validate_code`: reject unparseable code with the
parse-error message, otherwise walk every node and reject on the first rule
match; accept with the informational message when no node matches. -/
def validate_code (src : ParseResult) : Bool × String :=
  match src with
  | .parseFailure ex => (false, "Code could not be parsed: " ++ ex)
  | .parsed tree =>
    match scanNodes (walk tree) with
    | some reason => (false, reason)
    | none => (true, "Code appears safe")

/-- Host scene state, as mutated by candidate code through `bpy`: an opaque
list of object identifiers. -/
abbrev Scene := List Nat

/-- Value of `sys.stdout`: either some host stream (the pre-call value is
arbitrary) or the in-memory `StringIO` buffer installed by `execute_code`. -/
inductive Stdout where
  | hostStream (id : Nat)
  | stringBuffer
deriving DecidableEq

/-- Host state visible to `execute_code`: the scene, the undo-step stack
(maintained by `bpy.ops.ed.undo_push` / `bpy.ops.ed.undo`), and
`sys.stdout`. -/
structure World where
  scene : Scene
  undoStack : List Scene
  stdout : Stdout
deriving DecidableEq

/-- Model of `bpy.ops.ed.undo_push(message=...)`: snapshot the current scene
onto the undo stack. -/
def undo_push (w : World) (_message : String) : World :=
  { w with undoStack := w.scene :: w.undoStack }

/-- Model of `bpy.ops.ed.undo()`: restore the most recent undo snapshot (a
no-op on an empty stack). -/
def undo (w : World) : World :=
  match w.undoStack with
  | [] => w
  | s :: rest => { w with scene := s, undoStack := rest }

/-- Outcome of `exec(code, exec_globals)` on a given entry scene: normal
completion, an exception raised by the running code, or a `TimeoutError`
surfacing in the executing thread.  Each outcome carries the scene as the
code left it and the output accumulated in the stdout buffer so far. -/
inductive ExecOutcome where
  | ok (scene : Scene) (output : String)
  | raises (exMsg : String) (tb : String) (scene : Scene) (output : String)
  | timesOut (scene : Scene) (output : String)
deriving DecidableEq

/-- Dynamic behaviour of one candidate program under `exec`: a function from
the scene at entry to the outcome.  `execute_code` is parametric in this
behaviour because the model does not interpret Python. -/
def ExecBehavior := Scene → ExecOutcome

/-- The `(success, message, output)` triple returned by `execute_code`. -/
structure ExecResult where
  success : Bool
  message : String
  output : String
deriving DecidableEq

/-- Observable side-effect steps of one `execute_code` call, in order. -/
inductive ExecEvent where
  | namespaceBuilt
  | undoPushed
  | stdoutRedirected
  | execRan
  | viewLayerUpdated
  | undoInvoked
  | stdoutRestored
deriving DecidableEq

/-- Full description of one `execute_code` call: its returned triple, the
final host state, and the ordered side-effect events. -/
structure ExecCall where
  result : ExecResult
  world : World
  events : List ExecEvent
deriving DecidableEq

/-- Keys of the restricted `exec_globals` namespace built in Step 2 of
`execute_code`. -/
def exec_globals_keys : List String :=
  ["bpy", "bmesh", "mathutils", "math", "random", "json", "re", "time",
   "datetime", "safe_access", "__builtins__"]

/-- The restricted `__builtins__` table
`{k: getattr(builtins, k) for k in self.allowed_builtins}`: one entry per
allow-listed builtin name, bound to the host builtin of that name. -/
def restricted_builtins_dict : List (String × String) :=
  allowed_builtins.map (fun k => (k, "builtins." ++ k))

/-- Model of `CodeExecutor.execute_code`:
Step 1 validate (fail fast, returning `(False, message, "")`);
Step 2 build the restricted globals; Step 3 push an undo step;
Step 4 redirect stdout to a fresh buffer; Step 5 run the code under the
timeout context; on normal completion refresh the view layer and report
success, on `TimeoutError` or any other exception call `bpy.ops.ed.undo()`
and report failure with the buffered output so far; the `finally` block
restores the original stdout on every exit path. -/
def execute_code (code : ParseResult) (run : ExecBehavior) (w : World) : ExecCall :=
  let vr := validate_code code
  if vr.1 = false then
    { result := { success := false, message := vr.2, output := "" },
      world := w, events := [] }
  else
    let _globals := (exec_globals_keys, restricted_builtins_dict)
    let w1 := undo_push w "AI Code Execution"
    let old_stdout := w1.stdout
    let w2 : World := { w1 with stdout := Stdout.stringBuffer }
    match run w2.scene with
    | ExecOutcome.ok s out =>
      { result := { success := true, message := "Code executed successfully.", output := out },
        world := { scene := s, undoStack := w2.undoStack, stdout := old_stdout },
        events := [ExecEvent.namespaceBuilt, ExecEvent.undoPushed, ExecEvent.stdoutRedirected,
                   ExecEvent.execRan, ExecEvent.viewLayerUpdated, ExecEvent.stdoutRestored] }
    | ExecOutcome.timesOut s out =>
      let w3 := undo { w2 with scene := s }
      { result := { success := false,
                    message := "Code execution timed out: Code execution timed out after "
                      ++ toString execution_timeout ++ " seconds",
                    output := out },
        world := { w3 with stdout := old_stdout },
        events := [ExecEvent.namespaceBuilt, ExecEvent.undoPushed, ExecEvent.stdoutRedirected,
                   ExecEvent.execRan, ExecEvent.undoInvoked, ExecEvent.stdoutRestored] }
    | ExecOutcome.raises exMsg tb s out =>
      let w3 := undo { w2 with scene := s }
      let error_msg :=
        if containsPy exMsg "has no attribute \x27data\x27" then
          exMsg ++ "\nTip: Check if object has data before accessing (e.g., if obj.data: ...)"
        else if containsPy exMsg "\x27NoneType\x27" then
          exMsg ++ "\nTip: Check for None values before accessing attributes"
        else exMsg
      { result := { success := false,
                    message := "Error during code execution: " ++ error_msg ++ "\n\n" ++ tb,
                    output := out },
        world := { w3 with stdout := old_stdout },
        events := [ExecEvent.namespaceBuilt, ExecEvent.undoPushed, ExecEvent.stdoutRedirected,
                   ExecEvent.execRan, ExecEvent.undoInvoked, ExecEvent.stdoutRestored] }

/-- Import statements (either form), as a decidable node predicate. -/
def isImportNode : PyNode → Bool
  | .importStmt _ => true
  | .importFromStmt _ _ => true
  | _ => false

/-- Attribute accesses whose attribute name starts with a double
underscore. -/
def isDunderAttrNode : PyNode → Bool
  | .attributeExpr _ a => startsWithPy a "__"
  | _ => false

/-- Calls whose callee is a bare name on the `dangerous_names` deny-list. -/
def isDangerousCallNode : PyNode → Bool
  | .callExpr (.nameExpr id) _ => dangerous_names.contains id
  | _ => false

/-- Parsed tree of the candidate program `getattr(obj, "__class__")`: the
dunder string literal is the second argument, not the first. -/
def c4Example : PyNode :=
  PyNode.moduleNode [PyNode.exprStmt (PyNode.callExpr (PyNode.nameExpr "getattr")
    [PyNode.nameExpr "obj", PyNode.constantExpr (PyConst.strConst "__class__")])]

/-- Parsed tree of the candidate program
`eval(x)` on line 1 and `if y:` / (indented) `import os` on lines 2-3:
the import statement sits one level deeper than the `eval` call in
breadth-first order. -/
def c6Example : PyNode :=
  PyNode.moduleNode
    [PyNode.exprStmt (PyNode.callExpr (PyNode.nameExpr "eval") [PyNode.nameExpr "x"]),
     PyNode.ifStmt (PyNode.nameExpr "y") [PyNode.importStmt ["os"]] []]

/-- Parsed tree of the candidate program `eval(x)` then `y.__class__`. -/
def c7Example : PyNode :=
  PyNode.moduleNode
    [PyNode.exprStmt (PyNode.callExpr (PyNode.nameExpr "eval") [PyNode.nameExpr "x"]),
     PyNode.exprStmt (PyNode.attributeExpr (PyNode.nameExpr "y") "__class__")]

/-- Parsed tree of the candidate program `import os` then `eval(x)`. -/
def c8Example : PyNode :=
  PyNode.moduleNode
    [PyNode.importStmt ["os"],
     PyNode.exprStmt (PyNode.callExpr (PyNode.nameExpr "eval") [PyNode.nameExpr "x"])]

/-- Parsed tree of the candidate program `import os` then `dir(x)`. -/
def c10Example : PyNode :=
  PyNode.moduleNode
    [PyNode.importStmt ["os"],
     PyNode.exprStmt (PyNode.callExpr (PyNode.nameExpr "dir") [PyNode.nameExpr "x"])]

/-- A module node alone violates no validator rule. -/
theorem nv_moduleNode (body : List PyNode) :
    nodeViolation (PyNode.moduleNode body) = none := rfl

/-- An expression statement node alone violates no validator rule. -/
theorem nv_exprStmt (v : PyNode) : nodeViolation (PyNode.exprStmt v) = none := rfl

/-- A call whose callee is a bare name on the deny-list is reported by the
dangerous-function rule, whatever its arguments. -/
theorem nodeViolation_dangerous (id : String) (args : List PyNode)
    (h : dangerous_names.contains id = true) :
    nodeViolation (PyNode.callExpr (PyNode.nameExpr id) args) =
      some ("Usage of dangerous function \x27" ++ id ++ "\x27 detected!") := by
  have h2 : id ∈ dangerous_names := by simpa using h
  simp [nodeViolation, checkImport, checkCall, h2]

/-- A call to a suspicious-but-not-dangerous reflection helper whose first
positional argument is a dunder string literal is reported by the
suspicious-pattern rule. -/
theorem nodeViolation_suspicious (id s : String) (args : List PyNode)
    (hd : dangerous_names.contains id = false)
    (hp : suspicious_patterns.contains id = true)
    (hs : startsWithPy s "__" = true) :
    nodeViolation (PyNode.callExpr (PyNode.nameExpr id)
        (PyNode.constantExpr (PyConst.strConst s) :: args)) =
      some ("Suspicious usage of \x27" ++ id ++ "\x27 with dunder attribute detected!") := by
  have hd2 : ¬ id ∈ dangerous_names := by simpa using hd
  have hp2 : id ∈ suspicious_patterns := by simpa using hp
  simp [nodeViolation, checkImport, checkCall, hd2, hp2, hs]

/-- Scanning past a node that violates no rule. -/
theorem scanNodes_cons_none (n : PyNode) (l : List PyNode)
    (h : nodeViolation n = none) : scanNodes (n :: l) = scanNodes l := by
  simp [scanNodes, h]

/-- Scanning stops at the first violating node. -/
theorem scanNodes_cons_some (n : PyNode) (l : List PyNode) (r : String)
    (h : nodeViolation n = some r) : scanNodes (n :: l) = some r := by
  simp [scanNodes, h]

/-- If some node of the list violates a rule, the scan reports a violation. -/
theorem scanNodes_some_of_mem (l : List PyNode) (n : PyNode) (hm : n ∈ l)
    (r : String) (hv : nodeViolation n = some r) : ∃ q, scanNodes l = some q := by
  induction l with
  | nil => exact absurd hm (List.not_mem_nil n)
  | cons a l ih =>
    cases ha : nodeViolation a with
    | some q => exact ⟨q, scanNodes_cons_some a l q ha⟩
    | none =>
      rw [scanNodes_cons_none a l ha]
      rcases List.mem_cons.mp hm with he | hl
      · rw [he] at hv; rw [hv] at ha; exact absurd ha (by simp)
      · exact ih hl

/-- Every reported violation is the violation of some node of the list. -/
theorem scanNodes_mem_of_some (l : List PyNode) (r : String)
    (h : scanNodes l = some r) : ∃ n ∈ l, nodeViolation n = some r := by
  induction l with
  | nil => exact absurd h (by simp [scanNodes])
  | cons a l ih =>
    cases ha : nodeViolation a with
    | some q =>
      rw [scanNodes_cons_some a l q ha] at h
      exact ⟨a, List.mem_cons_self a l, by rw [ha]; exact h⟩
    | none =>
      rw [scanNodes_cons_none a l ha] at h
      obtain ⟨n, hm, hv⟩ := ih h
      exact ⟨n, List.mem_cons_of_mem a hm, hv⟩

/-- A reported scan violation makes `validate_code` reject with that reason. -/
theorem validate_code_parsed_some (t : PyNode) (r : String)
    (h : scanNodes (walk t) = some r) :
    validate_code (ParseResult.parsed t) = (false, r) := by
  simp [validate_code, h]

/-- A clean scan makes `validate_code` accept with the informational
message. -/
theorem validate_code_parsed_none (t : PyNode)
    (h : scanNodes (walk t) = none) :
    validate_code (ParseResult.parsed t) = (true, "Code appears safe") := by
  simp [validate_code, h]

/-- A violating node anywhere in the walk forces rejection. -/
theorem validate_code_parsed_false (t : PyNode) (n : PyNode) (hm : n ∈ walk t)
    (r : String) (hv : nodeViolation n = some r) :
    (validate_code (ParseResult.parsed t)).1 = false := by
  obtain ⟨q, hq⟩ := scanNodes_some_of_mem (walk t) n hm r hv
  rw [validate_code_parsed_some t q hq]

/-- Import nodes are always reported by the import rule. -/
theorem nodeViolation_of_importNode (n : PyNode) (h : isImportNode n = true) :
    nodeViolation n = some "Imports are not allowed!" := by
  unfold isImportNode at h
  split at h
  · rfl
  · rfl
  · exact absurd h (by simp)

/-- Dunder attribute accesses are always reported by the attribute rule. -/
theorem nodeViolation_of_dunderAttr (n : PyNode) (h : isDunderAttrNode n = true) :
    ∃ a, startsWithPy a "__" = true ∧
      nodeViolation n =
        some ("Access to dunder attribute \x27" ++ a ++ "\x27 is not allowed!") := by
  unfold isDunderAttrNode at h
  split at h
  case _ v a => exact ⟨a, h, by simp [nodeViolation, checkImport, checkCall, checkAttr, h]⟩
  case _ => exact absurd h (by simp)

/-- Deny-listed bare-name calls are always reported by the dangerous-function
rule. -/
theorem nodeViolation_of_dangerousCall (n : PyNode) (h : isDangerousCallNode n = true) :
    ∃ id, dangerous_names.contains id = true ∧
      nodeViolation n =
        some ("Usage of dangerous function \x27" ++ id ++ "\x27 detected!") := by
  unfold isDangerousCallNode at h
  split at h
  case _ id args => exact ⟨id, h, nodeViolation_dangerous id args h⟩
  case _ => exact absurd h (by simp)

/-- Claim C2: for every host state and every validated candidate whose
execution raises an exception, the scene after `execute_code` returns equals
the scene before the call: the undo step pushed before execution is restored
by `bpy.ops.ed.undo()` on the exception path, whatever scene the failing code
left behind. -/
theorem execute_code_restores_scene_on_raise (src : ParseResult) (run : ExecBehavior)
    (w : World) (m tb : String) (s : Scene) (out : String)
    (hv : (validate_code src).1 = true)
    (hr : run w.scene = ExecOutcome.raises m tb s out) :
    (execute_code src run w).world.scene = w.scene := by
  simp [execute_code, hv, undo_push, undo, hr]

/-- Witness for C2 at a concrete validated program, behaviour and world. -/
theorem execute_code_restores_scene_on_raise_witness :
    (validate_code (ParseResult.parsed (PyNode.moduleNode []))).1 = true ∧
    (fun sc => ExecOutcome.raises "boom" "tb" (99 :: sc) "partial")
        ({ scene := [1, 2], undoStack := [], stdout := Stdout.hostStream 7 } : World).scene =
      ExecOutcome.raises "boom" "tb" [99, 1, 2] "partial" ∧
    (execute_code (ParseResult.parsed (PyNode.moduleNode []))
        (fun sc => ExecOutcome.raises "boom" "tb" (99 :: sc) "partial")
        { scene := [1, 2], undoStack := [], stdout := Stdout.hostStream 7 }).world.scene =
      [1, 2] := by
  have hnone : scanNodes (walk (PyNode.moduleNode [])) = none := by
    simp only [walk, bfsWalk, PyNode.children, List.nil_append]
    decide
  have hv : (validate_code (ParseResult.parsed (PyNode.moduleNode []))).1 = true := by
    rw [validate_code_parsed_none _ hnone]
  exact ⟨hv, rfl,
    execute_code_restores_scene_on_raise (ParseResult.parsed (PyNode.moduleNode []))
      (fun sc => ExecOutcome.raises "boom" "tb" (99 :: sc) "partial")
      { scene := [1, 2], undoStack := [], stdout := Stdout.hostStream 7 }
      "boom" "tb" [99, 1, 2] "partial" hv rfl⟩

/-- Claim C3: when validation rejects, `execute_code` returns
`(False, reason, "")` as a value (no exception), leaves the host state
untouched, and performs none of the execution-stage steps: no namespace
construction, no undo push, no stdout redirection, no execution. -/
theorem execute_code_fail_fast_on_rejection (src : ParseResult) (run : ExecBehavior)
    (w : World) (hv : (validate_code src).1 = false) :
    execute_code src run w =
      { result := { success := false, message := (validate_code src).2, output := "" },
        world := w, events := [] } := by
  simp [execute_code, hv]

/-- Witness for C3 at a concrete rejected (unparseable) program. -/
theorem execute_code_fail_fast_on_rejection_witness :
    (validate_code (ParseResult.parseFailure "invalid syntax")).1 = false ∧
    execute_code (ParseResult.parseFailure "invalid syntax")
        (fun sc => ExecOutcome.ok sc "")
        { scene := [5], undoStack := [], stdout := Stdout.hostStream 0 } =
      { result := { success := false,
                    message := (validate_code (ParseResult.parseFailure "invalid syntax")).2,
                    output := "" },
        world := { scene := [5], undoStack := [], stdout := Stdout.hostStream 0 },
        events := [] } :=
  ⟨rfl, execute_code_fail_fast_on_rejection (ParseResult.parseFailure "invalid syntax")
    (fun sc => ExecOutcome.ok sc "")
    { scene := [5], undoStack := [], stdout := Stdout.hostStream 0 } rfl⟩

/-- Claim C4 is false as stated: its own example `getattr(obj, "__class__")`
puts the dunder string in the second argument while the rule inspects only
`args[0]`, so the program passes validation outright. -/
theorem getattr_dunder_second_argument_accepted_cex :
    startsWithPy "__class__" "__" = true ∧
    validate_code (ParseResult.parsed c4Example) = (true, "Code appears safe") := by
  refine ⟨by decide, validate_code_parsed_none _ ?_⟩
  simp only [c4Example, walk, bfsWalk, PyNode.children, List.nil_append,
    List.cons_append, List.append_nil]
  decide

/-- Claim C4 (amended): a `getattr`/`hasattr` call whose FIRST positional
argument is a dunder string literal is rejected with the suspicious-dunder
reason; `setattr`/`delattr` calls are rejected by the earlier deny-list rule
with the dangerous-function reason naming them, whatever their arguments. -/
theorem reflection_dunder_first_argument_rejected (f g s : String)
    (args brgs : List PyNode)
    (hf : f = "getattr" ∨ f = "hasattr") (hg : g = "setattr" ∨ g = "delattr")
    (hs : startsWithPy s "__" = true) :
    validate_code (ParseResult.parsed (PyNode.moduleNode [PyNode.exprStmt
        (PyNode.callExpr (PyNode.nameExpr f)
          (PyNode.constantExpr (PyConst.strConst s) :: args))])) =
      (false, "Suspicious usage of \x27" ++ f ++ "\x27 with dunder attribute detected!") ∧
    validate_code (ParseResult.parsed (PyNode.moduleNode [PyNode.exprStmt
        (PyNode.callExpr (PyNode.nameExpr g) brgs)])) =
      (false, "Usage of dangerous function \x27" ++ g ++ "\x27 detected!") := by
  constructor
  · have hd : dangerous_names.contains f = false := by
      rcases hf with h | h <;> subst h <;> rfl
    have hp : suspicious_patterns.contains f = true := by
      rcases hf with h | h <;> subst h <;> rfl
    refine validate_code_parsed_some _ _ ?_
    simp only [walk, bfsWalk, PyNode.children, List.nil_append,
      List.cons_append, List.append_nil]
    rw [scanNodes_cons_none _ _ (nv_moduleNode _),
      scanNodes_cons_none _ _ (nv_exprStmt _)]
    exact scanNodes_cons_some _ _ _ (nodeViolation_suspicious f s args hd hp hs)
  · have hd : dangerous_names.contains g = true := by
      rcases hg with h | h <;> subst h <;> rfl
    refine validate_code_parsed_some _ _ ?_
    simp only [walk, bfsWalk, PyNode.children, List.nil_append,
      List.cons_append, List.append_nil]
    rw [scanNodes_cons_none _ _ (nv_moduleNode _),
      scanNodes_cons_none _ _ (nv_exprStmt _)]
    exact scanNodes_cons_some _ _ _ (nodeViolation_dangerous g brgs hd)

/-- Witness for C4 (amended) at `getattr("__class__", obj)` and
`setattr(o)`. -/
theorem reflection_dunder_first_argument_rejected_witness :
    ("getattr" = "getattr" ∨ "getattr" = "hasattr") ∧
    ("setattr" = "setattr" ∨ "setattr" = "delattr") ∧
    startsWithPy "__class__" "__" = true ∧
    (validate_code (ParseResult.parsed (PyNode.moduleNode [PyNode.exprStmt
        (PyNode.callExpr (PyNode.nameExpr "getattr")
          (PyNode.constantExpr (PyConst.strConst "__class__") :: [PyNode.nameExpr "obj"]))])) =
      (false, "Suspicious usage of \x27getattr\x27 with dunder attribute detected!") ∧
    validate_code (ParseResult.parsed (PyNode.moduleNode [PyNode.exprStmt
        (PyNode.callExpr (PyNode.nameExpr "setattr") [PyNode.nameExpr "o"])])) =
      (false, "Usage of dangerous function \x27setattr\x27 detected!")) :=
  ⟨Or.inl rfl, Or.inl rfl, by decide,
    reflection_dunder_first_argument_rejected "getattr" "setattr" "__class__"
      [PyNode.nameExpr "obj"] [PyNode.nameExpr "o"]
      (Or.inl rfl) (Or.inl rfl) (by decide)⟩

/-- Claim C5: `while True: pass` is rejected by the literal-`while True`
rule, while the numerically truthy variant `while 1: pass` passes the whole
validator. -/
theorem while_true_rejected_while_one_accepted :
    validate_code (ParseResult.parsed (PyNode.moduleNode
        [PyNode.whileStmt (PyNode.constantExpr (PyConst.boolConst true))
          [PyNode.passStmt] []])) =
      (false, "Infinite \x27while True\x27 loops are not allowed for safety!") ∧
    validate_code (ParseResult.parsed (PyNode.moduleNode
        [PyNode.whileStmt (PyNode.constantExpr (PyConst.intConst 1))
          [PyNode.passStmt] []])) =
      (true, "Code appears safe") := by
  constructor
  · refine validate_code_parsed_some _ _ ?_
    simp only [walk, bfsWalk, PyNode.children, List.nil_append,
      List.cons_append, List.append_nil]
    decide
  · refine validate_code_parsed_none _ ?_
    simp only [walk, bfsWalk, PyNode.children, List.nil_append,
      List.cons_append, List.append_nil]
    decide

/-- Claim C6 is false as stated: `c6Example` contains an import statement,
yet the reported reason names `eval` (the breadth-first walk reaches the
`eval` call before the nested import) and does not mention imports. -/
theorem import_nested_reason_cex :
    (∃ n ∈ walk c6Example, isImportNode n = true) ∧
    validate_code (ParseResult.parsed c6Example) =
      (false, "Usage of dangerous function \x27eval\x27 detected!") ∧
    containsPy "Usage of dangerous function \x27eval\x27 detected!" "import" = false ∧
    containsPy "Usage of dangerous function \x27eval\x27 detected!" "Import" = false := by
  refine ⟨⟨PyNode.importStmt ["os"], ?_, rfl⟩, ?_, by decide, by decide⟩
  · simp only [c6Example, walk, bfsWalk, PyNode.children, List.nil_append,
      List.cons_append, List.append_nil]
    simp
  · refine validate_code_parsed_some _ _ ?_
    simp only [c6Example, walk, bfsWalk, PyNode.children, List.nil_append,
      List.cons_append, List.append_nil]
    decide

/-- Claim C6 (amended): every parsed candidate containing an import
statement (either form, anywhere in the tree) is rejected; the reason is
the import message unless the reported reason is the violation of some
non-import node encountered first in the walk. -/
theorem validate_code_rejects_any_import (t : PyNode)
    (h : ∃ n ∈ walk t, isImportNode n = true) :
    (validate_code (ParseResult.parsed t)).1 = false ∧
      ((validate_code (ParseResult.parsed t)).2 = "Imports are not allowed!" ∨
        ∃ n ∈ walk t, isImportNode n = false ∧
          nodeViolation n = some (validate_code (ParseResult.parsed t)).2) := by
  obtain ⟨n, hm, hi⟩ := h
  obtain ⟨q, hq⟩ :=
    scanNodes_some_of_mem (walk t) n hm _ (nodeViolation_of_importNode n hi)
  rw [validate_code_parsed_some t q hq]
  refine ⟨rfl, ?_⟩
  by_cases hr : q = "Imports are not allowed!"
  · exact Or.inl hr
  · right
    obtain ⟨m', hm2, hv2⟩ := scanNodes_mem_of_some (walk t) q hq
    refine ⟨m', hm2, ?_, hv2⟩
    cases him : isImportNode m'
    · rfl
    · rw [nodeViolation_of_importNode m' him] at hv2
      exact absurd (Option.some.inj hv2).symm hr

/-- Witness for C6 (amended) at `import os`. -/
theorem validate_code_rejects_any_import_witness :
    (∃ n ∈ walk (PyNode.moduleNode [PyNode.importStmt ["os"]]), isImportNode n = true) ∧
      ((validate_code (ParseResult.parsed (PyNode.moduleNode [PyNode.importStmt ["os"]]))).1 = false ∧
        ((validate_code (ParseResult.parsed (PyNode.moduleNode [PyNode.importStmt ["os"]]))).2 =
            "Imports are not allowed!" ∨
          ∃ n ∈ walk (PyNode.moduleNode [PyNode.importStmt ["os"]]), isImportNode n = false ∧
            nodeViolation n =
              some (validate_code (ParseResult.parsed
                (PyNode.moduleNode [PyNode.importStmt ["os"]]))).2)) := by
  have hmem : ∃ n ∈ walk (PyNode.moduleNode [PyNode.importStmt ["os"]]),
      isImportNode n = true := by
    refine ⟨PyNode.importStmt ["os"], ?_, rfl⟩
    simp only [walk, bfsWalk, PyNode.children, List.nil_append, List.append_nil]
    simp
  exact ⟨hmem, validate_code_rejects_any_import _ hmem⟩

/-- Claim C7 is false as stated: `c7Example` contains the dunder attribute
access `y.__class__`, yet the reported reason names `eval` (reached first in
the walk) and does not name the dunder attribute. -/
theorem dunder_attr_reason_cex :
    (∃ n ∈ walk c7Example, isDunderAttrNode n = true) ∧
    validate_code (ParseResult.parsed c7Example) =
      (false, "Usage of dangerous function \x27eval\x27 detected!") ∧
    containsPy "Usage of dangerous function \x27eval\x27 detected!" "__class__" = false := by
  refine ⟨⟨PyNode.attributeExpr (PyNode.nameExpr "y") "__class__", ?_, by decide⟩,
    ?_, by decide⟩
  · simp only [c7Example, walk, bfsWalk, PyNode.children, List.nil_append,
      List.cons_append, List.append_nil]
    simp
  · refine validate_code_parsed_some _ _ ?_
    simp only [c7Example, walk, bfsWalk, PyNode.children, List.nil_append,
      List.cons_append, List.append_nil]
    decide

/-- Claim C7 (amended): every parsed candidate containing a dunder-prefixed
attribute access is rejected; the reason names that dunder attribute unless
the reported reason is the violation of some non-dunder-attribute node
encountered first in the walk. -/
theorem validate_code_rejects_any_dunder_attr (t : PyNode)
    (h : ∃ n ∈ walk t, isDunderAttrNode n = true) :
    (validate_code (ParseResult.parsed t)).1 = false ∧
      ((∃ a, startsWithPy a "__" = true ∧
          (validate_code (ParseResult.parsed t)).2 =
            "Access to dunder attribute \x27" ++ a ++ "\x27 is not allowed!") ∨
        ∃ n ∈ walk t, isDunderAttrNode n = false ∧
          nodeViolation n = some (validate_code (ParseResult.parsed t)).2) := by
  obtain ⟨n, hm, hi⟩ := h
  obtain ⟨a, _, hv⟩ := nodeViolation_of_dunderAttr n hi
  obtain ⟨q, hq⟩ := scanNodes_some_of_mem (walk t) n hm _ hv
  rw [validate_code_parsed_some t q hq]
  refine ⟨rfl, ?_⟩
  obtain ⟨m', hm2, hv2⟩ := scanNodes_mem_of_some (walk t) q hq
  cases him : isDunderAttrNode m'
  · exact Or.inr ⟨m', hm2, him, hv2⟩
  · obtain ⟨b, hb, hvb⟩ := nodeViolation_of_dunderAttr m' him
    rw [hvb] at hv2
    exact Or.inl ⟨b, hb, (Option.some.inj hv2).symm⟩

/-- Witness for C7 (amended) at `x.__class__`. -/
theorem validate_code_rejects_any_dunder_attr_witness :
    (∃ n ∈ walk (PyNode.moduleNode
        [PyNode.exprStmt (PyNode.attributeExpr (PyNode.nameExpr "x") "__class__")]),
      isDunderAttrNode n = true) ∧
      ((validate_code (ParseResult.parsed (PyNode.moduleNode
          [PyNode.exprStmt (PyNode.attributeExpr (PyNode.nameExpr "x") "__class__")]))).1 = false ∧
        ((∃ a, startsWithPy a "__" = true ∧
            (validate_code (ParseResult.parsed (PyNode.moduleNode
              [PyNode.exprStmt (PyNode.attributeExpr (PyNode.nameExpr "x") "__class__")]))).2 =
              "Access to dunder attribute \x27" ++ a ++ "\x27 is not allowed!") ∨
          ∃ n ∈ walk (PyNode.moduleNode
              [PyNode.exprStmt (PyNode.attributeExpr (PyNode.nameExpr "x") "__class__")]),
            isDunderAttrNode n = false ∧
              nodeViolation n = some (validate_code (ParseResult.parsed (PyNode.moduleNode
                [PyNode.exprStmt (PyNode.attributeExpr (PyNode.nameExpr "x") "__class__")]))).2)) := by
  have hmem : ∃ n ∈ walk (PyNode.moduleNode
      [PyNode.exprStmt (PyNode.attributeExpr (PyNode.nameExpr "x") "__class__")]),
      isDunderAttrNode n = true := by
    refine ⟨PyNode.attributeExpr (PyNode.nameExpr "x") "__class__", ?_, by decide⟩
    simp only [walk, bfsWalk, PyNode.children, List.nil_append,
      List.cons_append, List.append_nil]
    simp
  exact ⟨hmem, validate_code_rejects_any_dunder_attr _ hmem⟩

/-- Claim C8 is false as stated: `c8Example` contains the deny-listed call
`eval(x)`, yet the reported reason is the import message (the import comes
first in the walk) and does not name `eval`. -/
theorem dangerous_call_reason_cex :
    (∃ n ∈ walk c8Example, isDangerousCallNode n = true) ∧
    validate_code (ParseResult.parsed c8Example) = (false, "Imports are not allowed!") ∧
    containsPy "Imports are not allowed!" "eval" = false := by
  refine ⟨⟨PyNode.callExpr (PyNode.nameExpr "eval") [PyNode.nameExpr "x"], ?_, by decide⟩,
    ?_, by decide⟩
  · simp only [c8Example, walk, bfsWalk, PyNode.children, List.nil_append,
      List.cons_append, List.append_nil]
    simp
  · refine validate_code_parsed_some _ _ ?_
    simp only [c8Example, walk, bfsWalk, PyNode.children, List.nil_append,
      List.cons_append, List.append_nil]
    decide

/-- Claim C8 (amended): every parsed candidate containing a call whose
callee is a bare deny-listed name is rejected; the reason names a deny-listed
function unless the reported reason is the violation of some other node
encountered first in the walk. -/
theorem validate_code_rejects_any_dangerous_call (t : PyNode)
    (h : ∃ n ∈ walk t, isDangerousCallNode n = true) :
    (validate_code (ParseResult.parsed t)).1 = false ∧
      ((∃ id, dangerous_names.contains id = true ∧
          (validate_code (ParseResult.parsed t)).2 =
            "Usage of dangerous function \x27" ++ id ++ "\x27 detected!") ∨
        ∃ n ∈ walk t, isDangerousCallNode n = false ∧
          nodeViolation n = some (validate_code (ParseResult.parsed t)).2) := by
  obtain ⟨n, hm, hi⟩ := h
  obtain ⟨id, _, hv⟩ := nodeViolation_of_dangerousCall n hi
  obtain ⟨q, hq⟩ := scanNodes_some_of_mem (walk t) n hm _ hv
  rw [validate_code_parsed_some t q hq]
  refine ⟨rfl, ?_⟩
  obtain ⟨m', hm2, hv2⟩ := scanNodes_mem_of_some (walk t) q hq
  cases him : isDangerousCallNode m'
  · exact Or.inr ⟨m', hm2, him, hv2⟩
  · obtain ⟨id2, hd2, hvb⟩ := nodeViolation_of_dangerousCall m' him
    rw [hvb] at hv2
    exact Or.inl ⟨id2, hd2, (Option.some.inj hv2).symm⟩

/-- Witness for C8 (amended) at `eval(x)`. -/
theorem validate_code_rejects_any_dangerous_call_witness :
    (∃ n ∈ walk (PyNode.moduleNode
        [PyNode.exprStmt (PyNode.callExpr (PyNode.nameExpr "eval") [PyNode.nameExpr "x"])]),
      isDangerousCallNode n = true) ∧
      ((validate_code (ParseResult.parsed (PyNode.moduleNode
          [PyNode.exprStmt (PyNode.callExpr (PyNode.nameExpr "eval")
            [PyNode.nameExpr "x"])]))).1 = false ∧
        ((∃ id, dangerous_names.contains id = true ∧
            (validate_code (ParseResult.parsed (PyNode.moduleNode
              [PyNode.exprStmt (PyNode.callExpr (PyNode.nameExpr "eval")
                [PyNode.nameExpr "x"])]))).2 =
              "Usage of dangerous function \x27" ++ id ++ "\x27 detected!") ∨
          ∃ n ∈ walk (PyNode.moduleNode
              [PyNode.exprStmt (PyNode.callExpr (PyNode.nameExpr "eval")
                [PyNode.nameExpr "x"])]),
            isDangerousCallNode n = false ∧
              nodeViolation n = some (validate_code (ParseResult.parsed (PyNode.moduleNode
                [PyNode.exprStmt (PyNode.callExpr (PyNode.nameExpr "eval")
                  [PyNode.nameExpr "x"])]))).2)) := by
  have hmem : ∃ n ∈ walk (PyNode.moduleNode
      [PyNode.exprStmt (PyNode.callExpr (PyNode.nameExpr "eval") [PyNode.nameExpr "x"])]),
      isDangerousCallNode n = true := by
    refine ⟨PyNode.callExpr (PyNode.nameExpr "eval") [PyNode.nameExpr "x"], ?_, by decide⟩
    simp only [walk, bfsWalk, PyNode.children, List.nil_append,
      List.cons_append, List.append_nil]
    simp
  exact ⟨hmem, validate_code_rejects_any_dangerous_call _ hmem⟩

/-- Claim C9: once the execution stage is reached, `sys.stdout` is restored
to its pre-call value on every exit path (completion, timeout, exception):
the `finally` block always runs. -/
theorem execute_code_restores_stdout (src : ParseResult) (run : ExecBehavior)
    (w : World) (hv : (validate_code src).1 = true) :
    (execute_code src run w).world.stdout = w.stdout := by
  cases hrun : run w.scene with
  | ok s out => simp [execute_code, hv, undo_push, undo, hrun]
  | raises m tb s out => simp [execute_code, hv, undo_push, undo, hrun]
  | timesOut s out => simp [execute_code, hv, undo_push, undo, hrun]

/-- Witness for C9 at a concrete validated program and world. -/
theorem execute_code_restores_stdout_witness :
    (validate_code (ParseResult.parsed (PyNode.moduleNode []))).1 = true ∧
    (execute_code (ParseResult.parsed (PyNode.moduleNode []))
        (fun sc => ExecOutcome.ok (3 :: sc) "4\n")
        { scene := [8], undoStack := [], stdout := Stdout.hostStream 5 }).world.stdout =
      Stdout.hostStream 5 := by
  have hnone : scanNodes (walk (PyNode.moduleNode [])) = none := by
    simp only [walk, bfsWalk, PyNode.children, List.nil_append]
    decide
  have hv : (validate_code (ParseResult.parsed (PyNode.moduleNode []))).1 = true := by
    rw [validate_code_parsed_none _ hnone]
  exact ⟨hv, execute_code_restores_stdout (ParseResult.parsed (PyNode.moduleNode []))
    (fun sc => ExecOutcome.ok (3 :: sc) "4\n")
    { scene := [8], undoStack := [], stdout := Stdout.hostStream 5 } hv⟩

/-- Claim C10 is false as stated: `c10Example` contains the bare-name call
`dir(x)` and is rejected, but the reason is the import message (the import
comes first in the walk), not one naming `dir`. -/
theorem dir_call_reason_cex :
    (∃ args, PyNode.callExpr (PyNode.nameExpr "dir") args ∈ walk c10Example) ∧
    validate_code (ParseResult.parsed c10Example) = (false, "Imports are not allowed!") ∧
    containsPy "Imports are not allowed!" "dir" = false := by
  refine ⟨⟨[PyNode.nameExpr "x"], ?_⟩, ?_, by decide⟩
  · simp only [c10Example, walk, bfsWalk, PyNode.children, List.nil_append,
      List.cons_append, List.append_nil]
    simp
  · refine validate_code_parsed_some _ _ ?_
    simp only [c10Example, walk, bfsWalk, PyNode.children, List.nil_append,
      List.cons_append, List.append_nil]
    decide

/-- Claim C10 (amended): `dir` is simultaneously on the validator deny-list
and in the allow-listed builtins exposed through the restricted
`__builtins__` table, and every parsed candidate containing a bare-name
`dir(...)` call is rejected — so the exposed `dir` builtin is never directly
callable from validated code. -/
theorem dir_denied_despite_builtin_exposure (t : PyNode)
    (h : ∃ args, PyNode.callExpr (PyNode.nameExpr "dir") args ∈ walk t) :
    dangerous_names.contains "dir" = true ∧
      allowed_builtins.contains "dir" = true ∧
      (restricted_builtins_dict.map Prod.fst).contains "dir" = true ∧
      (validate_code (ParseResult.parsed t)).1 = false := by
  obtain ⟨args, hm⟩ := h
  exact ⟨rfl, rfl, by decide,
    validate_code_parsed_false t _ hm _ (nodeViolation_dangerous "dir" args rfl)⟩

/-- Witness for C10 (amended) at `dir(x)`. -/
theorem dir_denied_despite_builtin_exposure_witness :
    (∃ args, PyNode.callExpr (PyNode.nameExpr "dir") args ∈
      walk (PyNode.moduleNode
        [PyNode.exprStmt (PyNode.callExpr (PyNode.nameExpr "dir") [PyNode.nameExpr "x"])])) ∧
      (dangerous_names.contains "dir" = true ∧
        allowed_builtins.contains "dir" = true ∧
        (restricted_builtins_dict.map Prod.fst).contains "dir" = true ∧
        (validate_code (ParseResult.parsed (PyNode.moduleNode
          [PyNode.exprStmt (PyNode.callExpr (PyNode.nameExpr "dir")
            [PyNode.nameExpr "x"])]))).1 = false) := by
  have hmem : ∃ args, PyNode.callExpr (PyNode.nameExpr "dir") args ∈
      walk (PyNode.moduleNode
        [PyNode.exprStmt (PyNode.callExpr (PyNode.nameExpr "dir") [PyNode.nameExpr "x"])]) := by
    refine ⟨[PyNode.nameExpr "x"], ?_⟩
    simp only [walk, bfsWalk, PyNode.children, List.nil_append,
      List.cons_append, List.append_nil]
    simp
  exact ⟨hmem, dir_denied_despite_builtin_exposure _ hmem⟩

end BlendAI
